import Mathlib

/-!
Verification of the hand-tracking pipeline (`HandPipeline` class of the
repository's hand-tracking source file).

The pipeline's own logic (`calculateLandmarksBoundingBox`,
`getBoxForPalmLandmarks`, `getBoxForHandLandmarks`, `transformRawCoords`,
`updateRegionsOfInterest`, `shouldUpdateRegionsOfInterest`, `estimateHand`)
is embedded directly from the source.  The geometry module (`./box`) and the
rotation-math module (`./util`) are required by the source file but are not
part of the sources at hand; their operations are modelled from the spec
(sections 4.1 and 4.2), each marked `Modelled from the spec:` in its doc
comment.  Coordinates are rational numbers; trigonometric values (the cosine
and sine of the alignment angle, produced by the absent `util.computeRotation`)
enter the model as explicit rational parameters.  The two external neural
models, image buffers and their disposal are outside the tracked state: a
frame's external inputs (bounding-box prediction, model confidence, raw
keypoints, angle cosine/sine) are gathered in a `FrameEnv` record.
-/

namespace HandTracking

/-- A 2D point: x and y coordinate. -/
abbrev Point2 := ℚ × ℚ

/-- A 3D point: x, y and a depth-like third component. -/
abbrev Point3 := ℚ × ℚ × ℚ

/-- A hand bounding box: two corners and, optionally, the seven palm
landmarks attached by `getBoxForHandLandmarks` or the external detector. -/
structure Box where
  startPoint : Point2
  endPoint : Point2
  palmLandmarks : Option (List Point2)
  deriving DecidableEq

/-- Modelled from the spec: `getBoxSize` of the geometry module (`./box`,
absent from the sources) — component-wise difference of the corners. -/
def getBoxSize (box : Box) : Point2 :=
  (box.endPoint.1 - box.startPoint.1, box.endPoint.2 - box.startPoint.2)

/-- Modelled from the spec: `getBoxCenter` of the geometry module (`./box`,
absent from the sources) — component-wise midpoint of the corners. -/
def getBoxCenter (box : Box) : Point2 :=
  ((box.startPoint.1 + box.endPoint.1) / 2, (box.startPoint.2 + box.endPoint.2) / 2)

/-- Modelled from the spec: `shiftBox` of the geometry module (`./box`,
absent from the sources) — translate both corners by the vector scaled by the
box's width and height (vector components are fractions of box size). -/
def shiftBox (box : Box) (vec : Point2) : Box :=
  let size := getBoxSize box
  let shiftVector : Point2 := (size.1 * vec.1, size.2 * vec.2)
  { startPoint := (box.startPoint.1 + shiftVector.1, box.startPoint.2 + shiftVector.2),
    endPoint := (box.endPoint.1 + shiftVector.1, box.endPoint.2 + shiftVector.2),
    palmLandmarks := box.palmLandmarks }

/-- Modelled from the spec: `squarifyBox` of the geometry module (`./box`,
absent from the sources) — expand the shorter dimension so width equals
height, centered on the original box's center. -/
def squarifyBox (box : Box) : Box :=
  let center := getBoxCenter box
  let size := getBoxSize box
  let halfEdge := max size.1 size.2 / 2
  { startPoint := (center.1 - halfEdge, center.2 - halfEdge),
    endPoint := (center.1 + halfEdge, center.2 + halfEdge),
    palmLandmarks := box.palmLandmarks }

/-- Modelled from the spec: `enlargeBox` of the geometry module (`./box`,
absent from the sources) — scale box dimensions by `factor` about its
center. -/
def enlargeBox (box : Box) (factor : ℚ) : Box :=
  let center := getBoxCenter box
  let size := getBoxSize box
  let halfSize : Point2 := (factor * size.1 / 2, factor * size.2 / 2)
  { startPoint := (center.1 - halfSize.1, center.2 - halfSize.2),
    endPoint := (center.1 + halfSize.1, center.2 + halfSize.2),
    palmLandmarks := box.palmLandmarks }

/-- A 2×3 affine rotation matrix, two row vectors of three numbers each,
applicable to a homogeneous 2D point (spec section 3). -/
structure RotationMatrix where
  r0 : Point3
  r1 : Point3
  deriving DecidableEq

/-- Modelled from the spec: `dot` of the rotation-math module (`./util`,
absent from the sources) — dot product of a 3-vector with a matrix row. -/
def dot3 (a b : Point3) : ℚ :=
  a.1 * b.1 + a.2.1 * b.2.1 + a.2.2 * b.2.2

/-- Modelled from the spec: `buildRotationMatrix(angle, pivot)` of the
rotation-math module (`./util`, absent from the sources) — the affine matrix
rotating around `center` by the angle whose cosine is `c` and sine is `s`
(the trigonometric evaluation itself is irrational and is supplied by the
caller). The matrix maps a homogeneous point `p` to `center + R (p - center)`
where `R` is the plain rotation by the angle. -/
def buildRotationMatrixCS (c s : ℚ) (center : Point2) : RotationMatrix :=
  { r0 := (c, -s, center.1 - c * center.1 + s * center.2),
    r1 := (s, c, center.2 - s * center.1 - c * center.2) }

/-- Modelled from the spec: `rotatePoint(homogeneousPoint, matrix)` of the
rotation-math module (`./util`, absent from the sources) — dot product of the
point with each row of the matrix, producing a 2D point. -/
def rotatePoint (p : Point3) (m : RotationMatrix) : Point2 :=
  (dot3 p m.r0, dot3 p m.r1)

/-- Modelled from the spec: `invertTransformMatrix` of the rotation-math
module (`./util`, absent from the sources) — algebraic inverse of the affine
rotation: transposed rotation block, translation mapped through the
transposed block and negated. -/
def invertTransformMatrix (m : RotationMatrix) : RotationMatrix :=
  { r0 := (m.r0.1, m.r1.1, -(m.r0.1 * m.r0.2.2 + m.r1.1 * m.r1.2.2)),
    r1 := (m.r0.2.1, m.r1.2.1, -(m.r0.2.1 * m.r0.2.2 + m.r1.2.1 * m.r1.2.2)) }

/-- Source constant `UPDATE_REGION_OF_INTEREST_IOU_THRESHOLD = 0.8`. -/
def UPDATE_REGION_OF_INTEREST_IOU_THRESHOLD : ℚ := 8 / 10

/-- Source constant `PALM_BOX_SHIFT_VECTOR = [0, -0.4]`. -/
def PALM_BOX_SHIFT_VECTOR : Point2 := (0, -4 / 10)

/-- Source constant `PALM_BOX_ENLARGE_FACTOR = 3`. -/
def PALM_BOX_ENLARGE_FACTOR : ℚ := 3

/-- Source constant `HAND_BOX_SHIFT_VECTOR = [0, -0.1]`. -/
def HAND_BOX_SHIFT_VECTOR : Point2 := (0, -1 / 10)

/-- Source constant `HAND_BOX_ENLARGE_FACTOR = 1.65`. -/
def HAND_BOX_ENLARGE_FACTOR : ℚ := 165 / 100

/-- Source constant `PALM_LANDMARK_IDS = [0, 5, 9, 13, 17, 1, 2]`. -/
def PALM_LANDMARK_IDS : List ℕ := [0, 5, 9, 13, 17, 1, 2]

/-- Source constant `PALM_LANDMARKS_INDEX_OF_PALM_BASE = 0`. -/
def PALM_LANDMARKS_INDEX_OF_PALM_BASE : ℕ := 0

/-- Source constant `PALM_LANDMARKS_INDEX_OF_MIDDLE_FINGER_BASE = 2`. -/
def PALM_LANDMARKS_INDEX_OF_MIDDLE_FINGER_BASE : ℕ := 2

/-- Source constant `this.maxHandsNumber = 1` set in the constructor. -/
def maxHandsNumber : ℕ := 1

/-- Minimum of a list of rationals, as `Math.min` applied to the spread
coordinate list of `calculateLandmarksBoundingBox` (the source only ever
applies it to the 21- or 7-point landmark lists, which are nonempty). -/
def listMin : List ℚ → ℚ
  | [] => 0
  | h :: t => t.foldl min h

/-- Maximum of a list of rationals, as `Math.max` applied to the spread
coordinate list of `calculateLandmarksBoundingBox`. -/
def listMax : List ℚ → ℚ
  | [] => 0
  | h :: t => t.foldl max h

/-- Truncation of a 3D landmark to its first two components, as the source's
`landmarks[id].slice(0, 2)`. -/
def point2of (p : Point3) : Point2 :=
  (p.1, p.2.1)

/-- `HandPipeline.calculateLandmarksBoundingBox`, embedded from the source:
the axis-aligned bounding box of the landmarks (the source reads only the
first two components of each landmark). -/
def calculateLandmarksBoundingBox (landmarks : List Point2) : Box :=
  let xs := landmarks.map (fun d => d.1)
  let ys := landmarks.map (fun d => d.2)
  { startPoint := (listMin xs, listMin ys),
    endPoint := (listMax xs, listMax ys),
    palmLandmarks := none }

/-- `HandPipeline.getBoxForPalmLandmarks`, embedded from the source: rotate
the palm landmarks (as homogeneous coordinates) by the rotation matrix, take
their bounding box, then shift, squarify and enlarge it with the palm-box
constants. -/
def getBoxForPalmLandmarks (palmLandmarks : List Point2) (rotationMatrix : RotationMatrix) : Box :=
  let rotatedPalmLandmarks := palmLandmarks.map (fun coord =>
    rotatePoint (coord.1, coord.2, 1) rotationMatrix)
  let boxAroundPalm := calculateLandmarksBoundingBox rotatedPalmLandmarks
  enlargeBox (squarifyBox (shiftBox boxAroundPalm PALM_BOX_SHIFT_VECTOR)) PALM_BOX_ENLARGE_FACTOR

/-- `HandPipeline.getBoxForHandLandmarks`, embedded from the source: the
landmarks' bounding box shifted by `HAND_BOX_SHIFT_VECTOR`, squarified and
enlarged by `HAND_BOX_ENLARGE_FACTOR`, with `palmLandmarks` set to the
landmarks at the indices `PALM_LANDMARK_IDS`, each truncated to 2D. -/
def getBoxForHandLandmarks (landmarks : List Point3) : Box :=
  let boundingBox := calculateLandmarksBoundingBox (landmarks.map point2of)
  let boxAroundHand :=
    enlargeBox (squarifyBox (shiftBox boundingBox HAND_BOX_SHIFT_VECTOR)) HAND_BOX_ENLARGE_FACTOR
  let palmLandmarks := PALM_LANDMARK_IDS.map (fun i => point2of (landmarks.getD i (0, 0, 0)))
  { startPoint := boxAroundHand.startPoint,
    endPoint := boxAroundHand.endPoint,
    palmLandmarks := some palmLandmarks }

/-- `HandPipeline.transformRawCoords`, embedded from the source: scale each
raw keypoint about the model input's midpoint by the crop-to-model size
ratio, rotate the scaled offsets by the matrix built from the alignment angle
about the origin, recover the crop box's center in the unrotated frame via
the inverse rotation matrix, and translate every point by that center.  The
parameters `c` and `s` are the cosine and sine of the alignment angle
(`buildRotationMatrix(angle, [0, 0])` in the source). -/
def transformRawCoords (meshWidth meshHeight : ℚ) (rawCoords : List Point3) (box : Box)
    (c s : ℚ) (rotationMatrix : RotationMatrix) : List Point3 :=
  let boxSize := getBoxSize box
  let scaleFactor : Point2 := (boxSize.1 / meshWidth, boxSize.2 / meshHeight)
  let coordsScaled := rawCoords.map (fun coord =>
    (scaleFactor.1 * (coord.1 - meshWidth / 2),
     scaleFactor.2 * (coord.2.1 - meshHeight / 2), coord.2.2))
  let coordsRotationMatrix := buildRotationMatrixCS c s (0, 0)
  let coordsRotated := coordsScaled.map (fun coord =>
    let rotated := rotatePoint coord coordsRotationMatrix
    (rotated.1, rotated.2, coord.2.2))
  let inverseRotationMatrix := invertTransformMatrix rotationMatrix
  let boxCenter := getBoxCenter box
  let boxCenterH : Point3 := (boxCenter.1, boxCenter.2, 1)
  let originalBoxCenter : Point2 :=
    (dot3 boxCenterH inverseRotationMatrix.r0, dot3 boxCenterH inverseRotationMatrix.r1)
  coordsRotated.map (fun coord =>
    (coord.1 + originalBoxCenter.1, coord.2.1 + originalBoxCenter.2, coord.2.2))

/-- The IOU computation of `HandPipeline.updateRegionsOfInterest` (source
lines 246-258), embedded verbatim: note that `previousBoxArea` is computed
from `previousBoxEndY - boxStartY`, exactly as the source writes it. -/
def computeIou (box previousBox : Box) : ℚ :=
  let boxStartX := box.startPoint.1
  let boxStartY := box.startPoint.2
  let boxEndX := box.endPoint.1
  let boxEndY := box.endPoint.2
  let previousBoxStartX := previousBox.startPoint.1
  let previousBoxStartY := previousBox.startPoint.2
  let previousBoxEndX := previousBox.endPoint.1
  let previousBoxEndY := previousBox.endPoint.2
  let xStartMax := max boxStartX previousBoxStartX
  let yStartMax := max boxStartY previousBoxStartY
  let xEndMin := min boxEndX previousBoxEndX
  let yEndMin := min boxEndY previousBoxEndY
  let intersection := (xEndMin - xStartMax) * (yEndMin - yStartMax)
  let boxArea := (boxEndX - boxStartX) * (boxEndY - boxStartY)
  let previousBoxArea := (previousBoxEndX - previousBoxStartX) * (previousBoxEndY - boxStartY)
  intersection / (boxArea + previousBoxArea - intersection)

/-- The IOU formula as the spec's claim words it ("each box's area is
computed consistently from that box's own startPoint and endPoint, in
particular the previous box's area uses previousBox.startPoint.y") — the
consistent variant, for comparison with the source's `computeIou`. -/
def iouConsistent (box previousBox : Box) : ℚ :=
  let xStartMax := max box.startPoint.1 previousBox.startPoint.1
  let yStartMax := max box.startPoint.2 previousBox.startPoint.2
  let xEndMin := min box.endPoint.1 previousBox.endPoint.1
  let yEndMin := min box.endPoint.2 previousBox.endPoint.2
  let intersection := (xEndMin - xStartMax) * (yEndMin - yStartMax)
  let boxArea := (box.endPoint.1 - box.startPoint.1) * (box.endPoint.2 - box.startPoint.2)
  let previousBoxArea :=
    (previousBox.endPoint.1 - previousBox.startPoint.1) *
      (previousBox.endPoint.2 - previousBox.startPoint.2)
  intersection / (boxArea + previousBoxArea - intersection)

/-- `HandPipeline.updateRegionsOfInterest`, embedded from the source: a
forced update replaces the whole region list by the singleton `[box]`; a
non-forced update writes, at index 0, the previous region when the computed
IOU exceeds the threshold and the new box otherwise (an absent previous
region leaves the IOU at 0, so the new box is written). -/
def updateRegionsOfInterest (regionsOfInterest : List Box) (box : Box) (forceUpdate : Bool) :
    List Box :=
  if forceUpdate then [box]
  else
    match regionsOfInterest with
    | [] => [box]
    | previousBox :: rest =>
        (if computeIou box previousBox > UPDATE_REGION_OF_INTEREST_IOU_THRESHOLD then previousBox
         else box) :: rest

/-- The tracker state of `HandPipeline`: the region-of-interest list and the
counter of frames processed without a fresh full detection. -/
structure TrackerState where
  regionsOfInterest : List Box
  runsWithoutHandDetector : ℕ
  deriving DecidableEq

/-- The constructor configuration of `HandPipeline` together with the
per-call `config.minConfidence` gate of `estimateHand`. -/
structure PipelineConfig where
  meshWidth : ℚ
  meshHeight : ℚ
  maxContinuousChecks : ℕ
  minConfidence : ℚ
  deriving DecidableEq

/-- `HandPipeline.shouldUpdateRegionsOfInterest`, embedded from the source:
true iff the region count differs from `maxHandsNumber` or the counter of
runs without the hand detector has reached `maxContinuousChecks`. -/
def shouldUpdateRegionsOfInterest (cfg : PipelineConfig) (st : TrackerState) : Bool :=
  decide (st.regionsOfInterest.length ≠ maxHandsNumber) ||
    decide (st.runsWithoutHandDetector ≥ cfg.maxContinuousChecks)

/-- The external inputs consumed by one `estimateHand` frame: the bounding
box detector's prediction, the cosine and sine of the alignment angle
computed by the absent `util.computeRotation` from the current box's palm
landmarks, and the mesh model's confidence scalar and raw keypoints. -/
structure FrameEnv where
  boundingBoxPrediction : Option Box
  angleCos : ℚ
  angleSin : ℚ
  flagValue : ℚ
  rawCoords : List Point3
  deriving DecidableEq

/-- The successful result of `estimateHand`: mapped landmarks, confidence,
and the new bounding box's corners. -/
structure HandResult where
  landmarks : List Point3
  confidence : ℚ
  topLeft : Point2
  bottomRight : Point2
  deriving DecidableEq

/-- The default used for the (never taken in reachable states) read of a
region from an empty list. -/
def emptyBox : Box :=
  { startPoint := (0, 0), endPoint := (0, 0), palmLandmarks := none }

/-- The part of `HandPipeline.estimateHand` after the detection decision
(source lines 172-226): read the current region, build the rotation matrix
from the negated alignment angle about the region's center, pick the crop
box (palm-derived on a fresh detection, the region itself otherwise), gate
on the mesh confidence — resetting the regions and returning the absence
sentinel when below `minConfidence` — and otherwise map the raw keypoints
back to frame space, derive the next bounding box, and update the regions
non-forced. -/
def estimateHandTail (cfg : PipelineConfig) (st : TrackerState) (useFreshBox : Bool)
    (env : FrameEnv) : Option HandResult × TrackerState :=
  let currentBox := st.regionsOfInterest.headD emptyBox
  let palmCenter := getBoxCenter currentBox
  let rotationMatrix := buildRotationMatrixCS env.angleCos (-env.angleSin) palmCenter
  let box :=
    if useFreshBox then getBoxForPalmLandmarks (currentBox.palmLandmarks.getD []) rotationMatrix
    else currentBox
  if env.flagValue < cfg.minConfidence then
    (none, { st with regionsOfInterest := [] })
  else
    let coords :=
      transformRawCoords cfg.meshWidth cfg.meshHeight env.rawCoords box
        env.angleCos env.angleSin rotationMatrix
    let nextBoundingBox := getBoxForHandLandmarks coords
    (some { landmarks := coords, confidence := env.flagValue,
            topLeft := nextBoundingBox.startPoint, bottomRight := nextBoundingBox.endPoint },
     { st with regionsOfInterest :=
         updateRegionsOfInterest st.regionsOfInterest nextBoundingBox false })

/-- `HandPipeline.estimateHand`, embedded from the source as a transition on
the tracker state: when a full detection is due, a `null` detector answer
clears the regions and returns the absence sentinel, and otherwise the
prediction force-replaces the regions and the counter resets to zero; when
tracking continues, the counter increments.  The frame then proceeds with
`estimateHandTail`. -/
def estimateHand (cfg : PipelineConfig) (st : TrackerState) (env : FrameEnv) :
    Option HandResult × TrackerState :=
  if shouldUpdateRegionsOfInterest cfg st then
    match env.boundingBoxPrediction with
    | none => (none, { st with regionsOfInterest := [] })
    | some pred =>
        estimateHandTail cfg
          { regionsOfInterest := updateRegionsOfInterest st.regionsOfInterest pred true,
            runsWithoutHandDetector := 0 } true env
  else
    estimateHandTail cfg
      { st with runsWithoutHandDetector := st.runsWithoutHandDetector + 1 } false env

/-- An environment is well-formed when the external bounding-box detector's
prediction, if any, carries its palm landmarks — spec section 4.4 step 2:
the detected palm box "includes its palmLandmarks". -/
def goodEnv (env : FrameEnv) : Prop :=
  ∀ b, env.boundingBoxPrediction = some b → b.palmLandmarks.isSome

/-- Tracker states reachable from the freshly constructed pipeline through
any sequence of `estimateHand` frames with well-formed environments. -/
inductive Reachable (cfg : PipelineConfig) : TrackerState → Prop where
  | init : Reachable cfg { regionsOfInterest := [], runsWithoutHandDetector := 0 }
  | step (st : TrackerState) (env : FrameEnv) : Reachable cfg st → goodEnv env →
      Reachable cfg (estimateHand cfg st env).2

/-- A concrete 21-point landmark set whose bounding box is
`{(10,10)-(50,90)}`, used to witness the synthetic-box property. -/
def syntheticLandmarks : List Point3 :=
  (10, 10, 0) :: (50, 90, 0) :: List.replicate 19 (30, 50, 0)

/-! ## Helper lemmas -/

/-- `estimateHandTail` never touches the frame counter: both the
low-confidence branch and the success branch update only the regions. -/
theorem estimateHandTail_runs (cfg : PipelineConfig) (st : TrackerState) (useFreshBox : Bool)
    (env : FrameEnv) :
    (estimateHandTail cfg st useFreshBox env).2.runsWithoutHandDetector =
      st.runsWithoutHandDetector := by
  simp only [estimateHandTail]
  split <;> rfl

/-- `updateRegionsOfInterest` keeps the region list at length at most one. -/
theorem updateRegionsOfInterest_length_le (rois : List Box) (box : Box) (forceUpdate : Bool)
    (h : rois.length ≤ 1) : (updateRegionsOfInterest rois box forceUpdate).length ≤ 1 := by
  unfold updateRegionsOfInterest
  split
  · simp
  · match rois, h with
    | [], _ => simp
    | b :: t, h => simpa using h

/-- Every region present after `updateRegionsOfInterest` is either the new
box or one of the regions already present. -/
theorem updateRegionsOfInterest_mem (rois : List Box) (box b : Box) (forceUpdate : Bool)
    (h : b ∈ updateRegionsOfInterest rois box forceUpdate) : b = box ∨ b ∈ rois := by
  unfold updateRegionsOfInterest at h
  split at h
  · simp at h
    exact Or.inl h
  · match rois, h with
    | [], h => simp at h; exact Or.inl h
    | prev :: t, h =>
      rcases List.mem_cons.mp h with h | h
      · split at h
        · exact Or.inr (h ▸ List.mem_cons_self _ _)
        · exact Or.inl h
      · exact Or.inr (List.mem_cons_of_mem _ h)

/-- `getBoxForHandLandmarks` always attaches a palm-landmark list. -/
theorem getBoxForHandLandmarks_palm_isSome (landmarks : List Point3) :
    (getBoxForHandLandmarks landmarks).palmLandmarks.isSome := rfl

/-- The post-detection part of a frame preserves the tracker invariant:
at most one region, every region carrying palm landmarks. -/
theorem estimateHandTail_inv (cfg : PipelineConfig) (st : TrackerState) (useFreshBox : Bool)
    (env : FrameEnv) (hlen : st.regionsOfInterest.length ≤ 1)
    (hpalm : ∀ b ∈ st.regionsOfInterest, b.palmLandmarks.isSome) :
    (estimateHandTail cfg st useFreshBox env).2.regionsOfInterest.length ≤ 1 ∧
      ∀ b ∈ (estimateHandTail cfg st useFreshBox env).2.regionsOfInterest,
        b.palmLandmarks.isSome := by
  by_cases hflag : env.flagValue < cfg.minConfidence
  · simp [estimateHandTail, hflag]
  · simp only [estimateHandTail, hflag, if_false, ite_false]
    constructor
    · exact updateRegionsOfInterest_length_le _ _ _ hlen
    · intro b hb
      rcases updateRegionsOfInterest_mem _ _ _ _ hb with h | h
      · exact h ▸ getBoxForHandLandmarks_palm_isSome _
      · exact hpalm b h

/-! ## Claims -/

/-- C1: the claim says the IOU of `updateRegionsOfInterest` computes each
box's area from that box's own corners — in particular the previous box's
area from `previousBox.startPoint.y`.  The source instead computes
`previousBoxArea` from `previousBoxEndY - boxStartY`, mixing in the new
box's start-Y.  At the boxes `{(0,0)-(2,2)}` (new) and `{(0,1)-(2,3)}`
(previous) the source's value is `1/4` while the consistent formula the
claim states gives `1/3`. -/
theorem iou_previous_area_uses_new_start_y :
    computeIou { startPoint := (0, 0), endPoint := (2, 2), palmLandmarks := none }
        { startPoint := (0, 1), endPoint := (2, 3), palmLandmarks := none } = 1 / 4 ∧
    iouConsistent { startPoint := (0, 0), endPoint := (2, 2), palmLandmarks := none }
        { startPoint := (0, 1), endPoint := (2, 3), palmLandmarks := none } = 1 / 3 := by
  constructor <;> norm_num [computeIou, iouConsistent, min_def, max_def]

/-- C2 counterexample: the boxes `{(0,0)-(1,1)}` and `{(2,2)-(3,3)}` are
strictly disjoint in both axes, yet the computed IOU is `1/3`, not `0`: the
negative clipped extents multiply to a positive "intersection". -/
theorem iou_disjoint_nonzero :
    (({ startPoint := (0, 0), endPoint := (1, 1), palmLandmarks := none } : Box).endPoint.1 <
      ({ startPoint := (2, 2), endPoint := (3, 3), palmLandmarks := none } : Box).startPoint.1) ∧
    (({ startPoint := (0, 0), endPoint := (1, 1), palmLandmarks := none } : Box).endPoint.2 <
      ({ startPoint := (2, 2), endPoint := (3, 3), palmLandmarks := none } : Box).startPoint.2) ∧
    computeIou { startPoint := (0, 0), endPoint := (1, 1), palmLandmarks := none }
      { startPoint := (2, 2), endPoint := (3, 3), palmLandmarks := none } = 1 / 3 ∧
    computeIou { startPoint := (0, 0), endPoint := (1, 1), palmLandmarks := none }
      { startPoint := (2, 2), endPoint := (3, 3), palmLandmarks := none } ≠ 0 := by
  refine ⟨by norm_num, by norm_num, ?_, ?_⟩ <;> norm_num [computeIou, min_def, max_def]

/-- C2 (amended): the IOU of a box with positive width and height with
itself is `1`; the computed IOU of two boxes is `0` when the clipped
intersection extent is exactly zero in some axis (boxes that merely touch) —
but not for disjoint boxes in general, since negative clipped extents are
not clamped to zero. -/
theorem iou_self_and_touching :
    (∀ box : Box, box.startPoint.1 < box.endPoint.1 → box.startPoint.2 < box.endPoint.2 →
      computeIou box box = 1) ∧
    (∀ box previousBox : Box,
      (min box.endPoint.1 previousBox.endPoint.1 = max box.startPoint.1 previousBox.startPoint.1 ∨
       min box.endPoint.2 previousBox.endPoint.2 = max box.startPoint.2 previousBox.startPoint.2) →
      computeIou box previousBox = 0) := by
  constructor
  · intro box h1 h2
    have hA : (box.endPoint.1 - box.startPoint.1) * (box.endPoint.2 - box.startPoint.2) ≠ 0 :=
      ne_of_gt (mul_pos (by linarith) (by linarith))
    simp only [computeIou, max_self, min_self]
    rw [add_sub_cancel_right]
    exact div_self hA
  · intro box previousBox h
    rcases h with h | h
    · simp only [computeIou, h, sub_self, zero_mul, zero_div]
    · simp only [computeIou, h, sub_self, mul_zero, zero_mul, zero_div]

/-- C2 witness: the self-IOU of `{(0,0)-(2,2)}` is `1`, and the IOU of the
flush boxes `{(0,0)-(1,1)}` and `{(1,0)-(2,1)}` is `0`. -/
theorem iou_self_and_touching_witness :
    computeIou { startPoint := (0, 0), endPoint := (2, 2), palmLandmarks := none }
      { startPoint := (0, 0), endPoint := (2, 2), palmLandmarks := none } = 1 ∧
    computeIou { startPoint := (0, 0), endPoint := (1, 1), palmLandmarks := none }
      { startPoint := (1, 0), endPoint := (2, 1), palmLandmarks := none } = 0 :=
  ⟨iou_self_and_touching.1 { startPoint := (0, 0), endPoint := (2, 2), palmLandmarks := none }
      (by norm_num) (by norm_num),
   iou_self_and_touching.2 { startPoint := (0, 0), endPoint := (1, 1), palmLandmarks := none }
      { startPoint := (1, 0), endPoint := (2, 1), palmLandmarks := none } (Or.inl (by norm_num))⟩

/-- C3: `shouldUpdateRegionsOfInterest` returns true exactly when the
region count differs from `maxHandsNumber` (which is 1) or the counter of
runs without the hand detector has reached `maxContinuousChecks`. -/
theorem shouldRunFullDetection_iff (cfg : PipelineConfig) (st : TrackerState) :
    shouldUpdateRegionsOfInterest cfg st = true ↔
      (st.regionsOfInterest.length ≠ maxHandsNumber ∨
       st.runsWithoutHandDetector ≥ cfg.maxContinuousChecks) := by
  simp [shouldUpdateRegionsOfInterest]

/-- C4: a non-forced `updateRegionsOfInterest` installs the new box when no
region is present (the IOU is left at zero), retains the previous region
unchanged when the computed IOU exceeds the `0.8` threshold, and replaces it
with the new box otherwise. -/
theorem updateRegion_nonforced_policy (box previousBox : Box) (rest : List Box) :
    updateRegionsOfInterest [] box false = [box] ∧
    (computeIou box previousBox > UPDATE_REGION_OF_INTEREST_IOU_THRESHOLD →
      updateRegionsOfInterest (previousBox :: rest) box false = previousBox :: rest) ∧
    (¬ computeIou box previousBox > UPDATE_REGION_OF_INTEREST_IOU_THRESHOLD →
      updateRegionsOfInterest (previousBox :: rest) box false = box :: rest) := by
  refine ⟨rfl, fun h => ?_, fun h => ?_⟩
  · simp [updateRegionsOfInterest, h]
  · simp [updateRegionsOfInterest, h]

/-- C4 witness: an empty region list receives the new box; an identical
previous box (IOU `1 > 0.8`) is retained; a disjoint previous box
(IOU `1/3`) is replaced. -/
theorem updateRegion_nonforced_policy_witness :
    updateRegionsOfInterest [] { startPoint := (0, 0), endPoint := (2, 2), palmLandmarks := none }
        false = [{ startPoint := (0, 0), endPoint := (2, 2), palmLandmarks := none }] ∧
    updateRegionsOfInterest [{ startPoint := (0, 0), endPoint := (2, 2), palmLandmarks := none }]
        { startPoint := (0, 0), endPoint := (2, 2), palmLandmarks := none } false =
      [{ startPoint := (0, 0), endPoint := (2, 2), palmLandmarks := none }] ∧
    updateRegionsOfInterest [{ startPoint := (2, 2), endPoint := (3, 3), palmLandmarks := none }]
        { startPoint := (0, 0), endPoint := (1, 1), palmLandmarks := none } false =
      [{ startPoint := (0, 0), endPoint := (1, 1), palmLandmarks := none }] :=
  ⟨(updateRegion_nonforced_policy { startPoint := (0, 0), endPoint := (2, 2), palmLandmarks := none }
      { startPoint := (0, 0), endPoint := (2, 2), palmLandmarks := none } []).1,
   (updateRegion_nonforced_policy { startPoint := (0, 0), endPoint := (2, 2), palmLandmarks := none }
      { startPoint := (0, 0), endPoint := (2, 2), palmLandmarks := none } []).2.1
      (by norm_num [computeIou, min_def, max_def, UPDATE_REGION_OF_INTEREST_IOU_THRESHOLD]),
   (updateRegion_nonforced_policy { startPoint := (0, 0), endPoint := (1, 1), palmLandmarks := none }
      { startPoint := (2, 2), endPoint := (3, 3), palmLandmarks := none } []).2.2
      (by norm_num [computeIou, min_def, max_def, UPDATE_REGION_OF_INTEREST_IOU_THRESHOLD])⟩

/-- C5: a forced `updateRegionsOfInterest` makes the region list exactly the
singleton of the new box, whatever was tracked before; and on a frame where
a full detection runs and the detector returns a box, `estimateHand` leaves
the counter of runs without the hand detector at zero. -/
theorem updateRegion_forced_resets (cfg : PipelineConfig) (st : TrackerState) (env : FrameEnv)
    (newBox pred : Box) :
    updateRegionsOfInterest st.regionsOfInterest newBox true = [newBox] ∧
    (shouldUpdateRegionsOfInterest cfg st = true → env.boundingBoxPrediction = some pred →
      (estimateHand cfg st env).2.runsWithoutHandDetector = 0) := by
  refine ⟨rfl, fun hs hdet => ?_⟩
  simp only [estimateHand, hs, if_true, hdet, estimateHandTail_runs]

/-- C5 witness: the forced update on an empty list, and a concrete fresh
detection frame ending with the counter at zero. -/
theorem updateRegion_forced_resets_witness :
    updateRegionsOfInterest []
        { startPoint := (0, 0), endPoint := (2, 2), palmLandmarks := some [(0, 0), (1, 1)] } true =
      [{ startPoint := (0, 0), endPoint := (2, 2), palmLandmarks := some [(0, 0), (1, 1)] }] ∧
    (estimateHand
        { meshWidth := 256, meshHeight := 256, maxContinuousChecks := 5, minConfidence := 1 / 2 }
        { regionsOfInterest := [], runsWithoutHandDetector := 0 }
        { boundingBoxPrediction :=
            some { startPoint := (0, 0), endPoint := (2, 2), palmLandmarks := some [(0, 0), (1, 1)] },
          angleCos := 1, angleSin := 0, flagValue := 0, rawCoords := [] }).2.runsWithoutHandDetector
      = 0 := by
  have h := updateRegion_forced_resets
    { meshWidth := 256, meshHeight := 256, maxContinuousChecks := 5, minConfidence := 1 / 2 }
    { regionsOfInterest := [], runsWithoutHandDetector := 0 }
    { boundingBoxPrediction :=
        some { startPoint := (0, 0), endPoint := (2, 2), palmLandmarks := some [(0, 0), (1, 1)] },
      angleCos := 1, angleSin := 0, flagValue := 0, rawCoords := [] }
    { startPoint := (0, 0), endPoint := (2, 2), palmLandmarks := some [(0, 0), (1, 1)] }
    { startPoint := (0, 0), endPoint := (2, 2), palmLandmarks := some [(0, 0), (1, 1)] }
  exact ⟨h.1, h.2 (by decide) rfl⟩

/-- C6: on a frame where the detector runs and reports no palm, or the mesh
confidence is below `minConfidence`, `estimateHand` returns the absence
sentinel, the region list becomes empty, and the next frame's
`shouldUpdateRegionsOfInterest` is true. -/
theorem estimateHand_failure_clears (cfg : PipelineConfig) (st : TrackerState) (env : FrameEnv)
    (h : (shouldUpdateRegionsOfInterest cfg st = true ∧ env.boundingBoxPrediction = none) ∨
      env.flagValue < cfg.minConfidence) :
    (estimateHand cfg st env).1 = none ∧
    (estimateHand cfg st env).2.regionsOfInterest = [] ∧
    shouldUpdateRegionsOfInterest cfg (estimateHand cfg st env).2 = true := by
  have key : (estimateHand cfg st env).1 = none ∧
      (estimateHand cfg st env).2.regionsOfInterest = [] := by
    rcases h with ⟨hs, hdet⟩ | hflag
    · simp [estimateHand, hs, hdet]
    · by_cases hs : shouldUpdateRegionsOfInterest cfg st = true
      · cases hdet : env.boundingBoxPrediction with
        | none => simp [estimateHand, hs, hdet]
        | some pred => simp [estimateHand, estimateHandTail, hs, hdet, hflag]
      · rw [Bool.not_eq_true] at hs
        simp [estimateHand, estimateHandTail, hs, hflag]
  refine ⟨key.1, key.2, ?_⟩
  simp [shouldUpdateRegionsOfInterest, key.2, maxHandsNumber]

/-- C6 witness: a frame on the fresh pipeline whose detector reports no
palm. -/
theorem estimateHand_failure_clears_witness :
    (estimateHand
        { meshWidth := 256, meshHeight := 256, maxContinuousChecks := 5, minConfidence := 1 / 2 }
        { regionsOfInterest := [], runsWithoutHandDetector := 0 }
        { boundingBoxPrediction := none, angleCos := 1, angleSin := 0, flagValue := 0,
          rawCoords := [] }).1 = none ∧
    (estimateHand
        { meshWidth := 256, meshHeight := 256, maxContinuousChecks := 5, minConfidence := 1 / 2 }
        { regionsOfInterest := [], runsWithoutHandDetector := 0 }
        { boundingBoxPrediction := none, angleCos := 1, angleSin := 0, flagValue := 0,
          rawCoords := [] }).2.regionsOfInterest = [] ∧
    shouldUpdateRegionsOfInterest
        { meshWidth := 256, meshHeight := 256, maxContinuousChecks := 5, minConfidence := 1 / 2 }
        (estimateHand
          { meshWidth := 256, meshHeight := 256, maxContinuousChecks := 5, minConfidence := 1 / 2 }
          { regionsOfInterest := [], runsWithoutHandDetector := 0 }
          { boundingBoxPrediction := none, angleCos := 1, angleSin := 0, flagValue := 0,
            rawCoords := [] }).2 = true :=
  estimateHand_failure_clears _ _ _ (Or.inl ⟨by decide, rfl⟩)

/-- C7: with rotation angle `0` (cosine `1`, sine `0`) and the corresponding
rotation matrix about any pivot, `transformRawCoords` maps the keypoint at
the model input's center `(meshWidth/2, meshHeight/2)` to the crop box's
center, preserving the depth component. -/
theorem transformRawCoords_center_roundtrip (meshWidth meshHeight z : ℚ) (box : Box)
    (pivot : Point2) :
    transformRawCoords meshWidth meshHeight [(meshWidth / 2, meshHeight / 2, z)] box 1 0
        (buildRotationMatrixCS 1 0 pivot) =
      [((getBoxCenter box).1, (getBoxCenter box).2, z)] := by
  simp only [transformRawCoords, buildRotationMatrixCS, invertTransformMatrix, rotatePoint, dot3,
    getBoxCenter, getBoxSize, List.map_cons, List.map_nil, List.cons.injEq, Prod.mk.injEq,
    and_true]
  norm_num

/-- C8: for every raw keypoint list, crop box, angle (given by its cosine
and sine) and rotation matrix, `transformRawCoords` leaves the third (depth)
component of every point unchanged. -/
theorem transformRawCoords_preserves_depth (meshWidth meshHeight c s : ℚ)
    (rawCoords : List Point3) (box : Box) (rotationMatrix : RotationMatrix) :
    (transformRawCoords meshWidth meshHeight rawCoords box c s rotationMatrix).map
        (fun p => p.2.2) =
      rawCoords.map (fun p => p.2.2) := by
  simp only [transformRawCoords, List.map_map]
  rfl

/-- C9: on any 21-point landmark set whose raw bounding box is
`{(10,10)-(50,90)}`, `getBoxForHandLandmarks` returns exactly the box
obtained by shifting that bounding box by the fractional vector `(0, -0.1)`,
squarifying, and enlarging by `1.65` — numerically `{(-36,-24)-(96,108)}` —
with `palmLandmarks` the landmarks at indices `[0, 5, 9, 13, 17, 1, 2]`
truncated to 2D. -/
theorem getBoxForHandLandmarks_synthetic (landmarks : List Point3)
    (hlen : landmarks.length = 21)
    (hbb : calculateLandmarksBoundingBox (landmarks.map point2of) =
      { startPoint := (10, 10), endPoint := (50, 90), palmLandmarks := none }) :
    getBoxForHandLandmarks landmarks =
      { startPoint := (-36, -24), endPoint := (96, 108),
        palmLandmarks :=
          some (PALM_LANDMARK_IDS.map (fun i => point2of (landmarks.getD i (0, 0, 0)))) } := by
  simp only [getBoxForHandLandmarks, hbb]
  norm_num [shiftBox, squarifyBox, enlargeBox, getBoxSize, getBoxCenter, HAND_BOX_SHIFT_VECTOR,
    HAND_BOX_ENLARGE_FACTOR, min_def, max_def]

/-- C9 witness: `syntheticLandmarks` is a 21-point set with bounding box
`{(10,10)-(50,90)}`, and its hand box evaluates to the predicted corners and
palm landmarks. -/
theorem getBoxForHandLandmarks_synthetic_witness :
    getBoxForHandLandmarks syntheticLandmarks =
      { startPoint := (-36, -24), endPoint := (96, 108),
        palmLandmarks :=
          some [(10, 10), (30, 50), (30, 50), (30, 50), (30, 50), (50, 90), (30, 50)] } := by
  have h := getBoxForHandLandmarks_synthetic syntheticLandmarks
    (by norm_num [syntheticLandmarks, List.replicate])
    (by norm_num [calculateLandmarksBoundingBox, syntheticLandmarks, point2of, listMin, listMax,
      List.replicate, min_def, max_def])
  rw [h]
  norm_num [syntheticLandmarks, PALM_LANDMARK_IDS, List.replicate, point2of, List.getD]

/-- C10: in every tracker state reachable through any sequence of
`estimateHand` frames (with the external detector honouring its contract of
attaching palm landmarks to its boxes), the region list holds at most one
box, and any box it holds carries a palm-landmark list — so the per-frame
read of `currentBox.palmLandmarks` is always defined. -/
theorem tracker_state_invariant (cfg : PipelineConfig) (st : TrackerState)
    (h : Reachable cfg st) :
    st.regionsOfInterest.length ≤ 1 ∧
      ∀ b ∈ st.regionsOfInterest, b.palmLandmarks.isSome := by
  induction h with
  | init => simp
  | step st env hr hgood ih =>
    by_cases hs : shouldUpdateRegionsOfInterest cfg st = true
    · cases hdet : env.boundingBoxPrediction with
      | none => simp [estimateHand, hs, hdet]
      | some pred =>
        simp only [estimateHand, hs, if_true, hdet, updateRegionsOfInterest]
        exact estimateHandTail_inv _ _ _ _ (by simp)
          (by intro b hb; simp at hb; exact hb ▸ hgood pred hdet)
    · rw [Bool.not_eq_true] at hs
      simp only [estimateHand, hs, Bool.false_eq_true, if_false]
      exact estimateHandTail_inv _ _ _ _ ih.1 ih.2

/-- C10 witness: the initial state is reachable and satisfies the
invariant. -/
theorem tracker_state_invariant_witness :
    ({ regionsOfInterest := [], runsWithoutHandDetector := 0 } :
        TrackerState).regionsOfInterest.length ≤ 1 ∧
      ∀ b ∈ ({ regionsOfInterest := [], runsWithoutHandDetector := 0 } :
        TrackerState).regionsOfInterest, b.palmLandmarks.isSome :=
  tracker_state_invariant
    { meshWidth := 256, meshHeight := 256, maxContinuousChecks := 5, minConfidence := 1 / 2 }
    _ Reachable.init

end HandTracking
